import Mathlib

/-!
Formal model of the JurisExtract scraping core (src/main.py): a shallow
embedding of `scrape_de_search` and of the `/v1/business-search` route
handler `search`.

Browser interaction is modelled by an environment record `Env` that fixes,
for each awaited driver step, whether it succeeds or raises (and with which
exception message), which rows the results table holds if it becomes
present before its deadline, and what the page content reads after the
wait.  `scrape` replays `scrape_de_search` over such an environment,
threading the resource bookkeeping of the `finally` block explicitly, and
`searchRoute` replays the route handler on top of it.
-/

namespace JurisExtract

/-- One record dict built by the extraction loop of `scrape_de_search`
(src/main.py lines 79-84): first cell stripped into `file_number`, second
cell stripped into `entity_name`, constant `status` and `state` fields. -/
structure ScrapeRecord where
  file_number : String
  entity_name : String
  status : String
  state : String
  deriving Repr, DecidableEq

/-- An element of the list returned by `scrape_de_search`: either a data
record dict, or an error dict carrying the key "error" (src/main.py
lines 93 and 96). -/
inductive Entry where
  | record : ScrapeRecord → Entry
  | err : String → Entry
  deriving Repr, DecidableEq

/-- Does the second character list start with the first one? -/
def startsWithChars : List Char → List Char → Bool
  | [], _ => true
  | _ :: _, [] => false
  | p :: ps, c :: cs => p == c && startsWithChars ps cs

/-- Does the character list contain `p` as a contiguous run? -/
def hasSubChars (p : List Char) : List Char → Bool
  | [] => startsWithChars p []
  | c :: cs => startsWithChars p (c :: cs) || hasSubChars p cs

/-- Python's `phrase in content` substring test, as used on the page
content in src/main.py line 90. -/
def strContains (content phrase : String) : Bool :=
  hasSubChars phrase.toList content.toList

/-- The record built from the cell texts of one table row (src/main.py
lines 79-84): `cells[0].strip()` to `file_number`, `cells[1].strip()` to
`entity_name`, `"Found"` and `"DE"` as constants. -/
def recOf (cells : List String) : Entry :=
  Entry.record
    { file_number := (cells.getD 0 "").trim,
      entity_name := (cells.getD 1 "").trim,
      status := "Found",
      state := "DE" }

/-- One iteration of the extraction loop (src/main.py lines 76-84): a row
contributes a record when it has at least two cells (`len(cells) >= 2`)
and is skipped otherwise. -/
def extractRow (cells : List String) : Option Entry :=
  if 2 ≤ cells.length then some (recOf cells) else none

/-- The whole extraction loop (src/main.py lines 72-85): the header row
`rows[0]` is skipped (`rows[1:]`), the remaining rows are filtered and
mapped in order. -/
def extractRows (rows : List (List String)) : List Entry :=
  (rows.drop 1).filterMap extractRow

/-- Environment of one run of `scrape_de_search`: for each awaited step,
`none` means the step succeeds and `some msg` means it raises with message
`msg`; `tableRows` is `some rows` when the results table becomes present
before the 15s deadline (each inner list holding the td inner texts of one
tr, in order) and `none` when `wait_for_selector` times out; `content` is
what `page.content()` returns when it is reached and succeeds. -/
structure Env where
  launch : Option String
  newContext : Option String
  newPage : Option String
  goto : Option String
  fieldWait : Option String
  fieldClick : Option String
  fill : Option String
  submitClick : Option String
  tableRows : Option (List (List String))
  readContent : Option String
  content : String
  deriving Repr

/-- Observable outcome of one run of `scrape_de_search`: the value it
returns (`Except.ok`) or the exception escaping it uncaught
(`Except.error`), together with which session resources were opened and
whether the `finally` block's `browser.close()` ran before the return
(closing the browser also closes its context and page, recorded by the
three closed flags), and whether the submit control was clicked. -/
structure ScrapeRun where
  result : Except String (List Entry)
  browserOpened : Bool
  contextOpened : Bool
  pageOpened : Bool
  browserClosed : Bool
  contextClosed : Bool
  pageClosed : Bool
  submitClicked : Bool
  deriving Repr

/-- The body of the `try` block of `scrape_de_search` (src/main.py lines
47-93), run once the session exists.  Any raising step lands in the
`except Exception as e` handler (line 95) which returns the single-element
error list; no exception escapes the block.  Returns the Python return
value paired with whether the submit button's click happened. -/
def tryBody (env : Env) : List Entry × Bool :=
  match env.goto with
  | some e => ([Entry.err e], false)
  | none =>
    match env.fieldWait with
    | some e => ([Entry.err e], false)
    | none =>
      match env.fieldClick with
      | some e => ([Entry.err e], false)
      | none =>
        match env.fill with
        | some e => ([Entry.err e], false)
        | none =>
          match env.submitClick with
          | some e => ([Entry.err e], false)
          | none =>
            match env.tableRows with
            | some rows => (extractRows rows, true)
            | none =>
              match env.readContent with
              | some e => ([Entry.err e], true)
              | none =>
                if strContains env.content "No Records Found" then
                  ([], true)
                else
                  ([Entry.err "Search timed out or was blocked by the registry."], true)

/-- `scrape_de_search` (src/main.py lines 35-98).  The browser launch,
context creation and page creation (lines 38-45) happen before the `try`
block, so an exception in any of them escapes the function uncaught
(`Except.error`) and the `finally` block's `browser.close()` does not run
for them (the surrounding `async with async_playwright()` scope still
tears the driver down on those paths, but no explicit close precedes the
propagation).  Once all three succeeded, the `try`/`except`/`finally` of
lines 47-98 runs: the body's value is returned and `browser.close()`
executes on every path before the return. -/
def scrape (env : Env) : ScrapeRun :=
  match env.launch with
  | some e =>
      { result := Except.error e,
        browserOpened := false, contextOpened := false, pageOpened := false,
        browserClosed := false, contextClosed := false, pageClosed := false,
        submitClicked := false }
  | none =>
    match env.newContext with
    | some e =>
        { result := Except.error e,
          browserOpened := true, contextOpened := false, pageOpened := false,
          browserClosed := false, contextClosed := false, pageClosed := false,
          submitClicked := false }
    | none =>
      match env.newPage with
      | some e =>
          { result := Except.error e,
            browserOpened := true, contextOpened := true, pageOpened := false,
            browserClosed := false, contextClosed := false, pageClosed := false,
            submitClicked := false }
      | none =>
        let r := tryBody env
        { result := Except.ok r.1,
          browserOpened := true, contextOpened := true, pageOpened := true,
          browserClosed := true, contextClosed := true, pageClosed := true,
          submitClicked := r.2 }

/-- The JSON body returned by the `/v1/business-search` handler
(src/main.py lines 104-120), with `none` for keys the branch does not
emit. -/
structure SearchResponse where
  status : String
  message : Option String
  query : Option String
  count : Option Nat
  results : List Entry
  deriving Repr, DecidableEq

/-- The route handler `search` (src/main.py lines 104-120) on top of
`scrape_de_search`: an exception escaping the scrape escapes the handler
(`Except.error`, surfaced by the framework as a 500); otherwise, if the
returned list is non-empty and its first element is an error dict, the
handler answers status "error" with that message and an empty result list;
otherwise it answers with the query, the count, status "success" when the
list is non-empty and "no_results" when it is empty, and the list
itself. -/
def searchRoute (q : String) (env : Env) : Except String SearchResponse :=
  match (scrape env).result with
  | Except.error e => Except.error e
  | Except.ok data =>
    match data with
    | Entry.err m :: _ =>
        Except.ok { status := "error", message := some m,
                    query := none, count := none, results := [] }
    | _ =>
        Except.ok { status := if data.isEmpty then "no_results" else "success",
                    message := none, query := some q,
                    count := some data.length, results := data }

/-- All awaited interaction steps of the scrape succeed (the environment
raises nowhere up to and including the submit click). -/
def okSteps (env : Env) : Prop :=
  env.launch = none ∧ env.newContext = none ∧ env.newPage = none ∧
  env.goto = none ∧ env.fieldWait = none ∧ env.fieldClick = none ∧
  env.fill = none ∧ env.submitClick = none

/-- Launch options passed to `p.chromium.launch` (src/main.py lines
38-41). -/
structure LaunchOptions where
  headless : Bool
  args : List String
  deriving Repr, DecidableEq

/-- Context options passed to `browser.new_context` (src/main.py lines
42-44). -/
structure ContextOptions where
  userAgent : String
  deriving Repr, DecidableEq

/-- A session-creation action available in the driver API, including the
script-injection hook (`add_init_script`) the code could have used. -/
inductive SetupAction where
  | launch : LaunchOptions → SetupAction
  | newContext : ContextOptions → SetupAction
  | addInitScript : String → SetupAction
  | newPage : SetupAction
  deriving Repr, DecidableEq

/-- The launch options of src/main.py lines 38-41: headless, with the
flag that disables the automation-controlled blink feature. -/
def launchOpts : LaunchOptions :=
  { headless := true, args := ["--disable-blink-features=AutomationControlled"] }

/-- The context options of src/main.py lines 42-44: a desktop Chrome user
agent. -/
def contextOpts : ContextOptions :=
  { userAgent := "Mozilla/5.0 (Windows NT 10.0; Win64; x64) AppleWebKit/537.36 (KHTML, like Gecko) Chrome/122.0.0.0 Safari/537.36" }

/-- The exact session-creation sequence performed by `scrape_de_search`
before any navigation (src/main.py lines 36-45): launch with the stealth
flag, create a context with a desktop user agent, open a page — and
nothing else. -/
def sessionSetup : List SetupAction :=
  [SetupAction.launch launchOpts,
   SetupAction.newContext contextOpts,
   SetupAction.newPage]

/-- Is the action an injection of a pre-navigation (init) script? -/
def isInitScriptAction : SetupAction → Bool
  | SetupAction.addInitScript _ => true
  | _ => false

/-- Environment in which every awaited step succeeds, no table appears,
the content read succeeds, and the page content is empty. -/
def okEnvBase : Env :=
  { launch := none, newContext := none, newPage := none, goto := none,
    fieldWait := none, fieldClick := none, fill := none, submitClick := none,
    tableRows := none, readContent := none, content := "" }

/-- A blocked interstitial page whose boilerplate also carries an
incidental no-records text fragment. -/
def blockedNoRecordsEnv : Env :=
  { okEnvBase with
    content := "Pardon Our Interruption. Access Denied. Footer: No Records Found here." }

/-- Timeout fixture: no table, no known phrase, field interaction
succeeded. -/
def timeoutFixtureEnv : Env :=
  { okEnvBase with
    content := "<html><body>Still loading, please wait.</body></html>" }

/-- Confirmed-blocked fixture: challenge text, no table, no no-records
phrase. -/
def blockedFixtureEnv : Env :=
  { okEnvBase with
    content := "<html><body>Access Denied. Pardon Our Interruption.</body></html>" }

/-- A results table with a header row and two well-formed data rows. -/
def c3Table : List (List String) :=
  [["File Number", "Entity Name"],
   [" 123 ", " Tesla Inc. ", "Active"],
   ["456", "Acme Corp"]]

/-- Environment in which the results table `c3Table` appears. -/
def c3Env : Env := { okEnvBase with tableRows := some c3Table }

/-- A results table reduced to its header row, on a page whose content
carries the no-records phrase. -/
def headerOnlyTableEnv : Env :=
  { okEnvBase with
    tableRows := some [["File Number", "Entity Name"]],
    content := "No Records Found" }

/-- A valid results table with one data row, rendered alongside page
content carrying the no-records phrase. -/
def tableWithPhraseEnv : Env :=
  { okEnvBase with
    tableRows := some [["File Number", "Entity Name"], ["789", "Tesla Motors"]],
    content := "No Records Found" }

/-- Environment in which launching the browser engine raises. -/
def launchFailEnv : Env :=
  { okEnvBase with launch := some "Browser executable not found" }

/-- Environment in which the name-input field never becomes visible within
its deadline: the visibility wait raises a timeout. -/
def fieldTimeoutEnv : Env :=
  { okEnvBase with fieldWait := some "Timeout 30000ms exceeded waiting for element to be visible" }

/-- A results table whose only data row is malformed (one cell), so
extraction yields no record. -/
def emptyTableEnv : Env :=
  { okEnvBase with tableRows := some [["File Number", "Entity Name"], ["lone-cell"]] }

/-- A confirmed no-records page: no table, content carrying the
no-records phrase. -/
def noRecordsEnv : Env :=
  { okEnvBase with content := "No Records Found - please modify your search." }

/-- A row with at least two cells is extracted into its record. -/
theorem extractRow_wf (cells : List String) (h : 2 ≤ cells.length) :
    extractRow cells = some (recOf cells) := by
  simp [extractRow, h]

/-- A row with fewer than two cells is skipped. -/
theorem extractRow_malformed (cells : List String) (h : cells.length < 2) :
    extractRow cells = none := by
  simp [extractRow]
  omega

/-- Over rows that all have at least two cells, the extraction filter is
just a map: every row contributes its record, in order. -/
theorem filterMap_extractRow_of_wf :
    ∀ (l : List (List String)), (∀ r ∈ l, 2 ≤ r.length) →
      l.filterMap extractRow = l.map recOf := by
  intro l h
  induction l with
  | nil => rfl
  | cons a t ih =>
    have ha : 2 ≤ a.length := h a (List.mem_cons_self a t)
    have ht : ∀ r ∈ t, 2 ≤ r.length := fun r hr => h r (List.mem_cons_of_mem a hr)
    simp [List.filterMap_cons, extractRow_wf a ha, ih ht]

/-- Everything the extraction loop produces is a data record, never an
error dict. -/
theorem mem_filterMap_extractRow_record {e : Entry} {l : List (List String)}
    (h : e ∈ l.filterMap extractRow) : ∃ x, e = Entry.record x := by
  rcases List.mem_filterMap.mp h with ⟨a, _, ha⟩
  by_cases hc : 2 ≤ a.length
  · simp only [extractRow, if_pos hc, Option.some_inj] at ha
    exact ⟨_, ha.symm⟩
  · simp only [extractRow, if_neg hc] at ha
    exact Option.noConfusion ha

/-- C1: counterexample — on a page with no results table whose content
carries both block/challenge text ("Pardon Our Interruption", "Access
Denied") and the no-records phrase, `search` answers the no-results
response: the no-records phrase wins, so a blocked page yields NoResults,
contradicting the claim that block phrases take priority and that such a
page never yields NoResults. -/
theorem c1_block_priority_counterexample :
    searchRoute "Tesla" blockedNoRecordsEnv =
      Except.ok { status := "no_results", message := none,
                  query := some "Tesla", count := some 0, results := [] } := rfl

/-- C1 (amended): if no table appears before the deadline and the content
read succeeds, then any page content containing "No Records Found" — with
or without block/challenge text alongside — makes `search` return the
no-results response; the code has no block-phrase detection and never
prioritizes a block signal over the no-records phrase. -/
theorem c1_no_records_priority (q : String) (env : Env) (hok : okSteps env)
    (ht : env.tableRows = none) (hr : env.readContent = none)
    (hc : strContains env.content "No Records Found" = true) :
    searchRoute q env =
      Except.ok { status := "no_results", message := none,
                  query := some q, count := some 0, results := [] } := by
  obtain ⟨h1, h2, h3, h4, h5, h6, h7, h8⟩ := hok
  simp [searchRoute, scrape, tryBody, h1, h2, h3, h4, h5, h6, h7, h8, ht, hr, hc]

/-- C1 (amended) witness at the concrete blocked-interstitial page. -/
theorem c1_no_records_priority_witness :
    okSteps blockedNoRecordsEnv ∧
    searchRoute "Acme" blockedNoRecordsEnv =
      Except.ok { status := "no_results", message := none,
                  query := some "Acme", count := some 0, results := [] } :=
  ⟨⟨rfl, rfl, rfl, rfl, rfl, rfl, rfl, rfl⟩,
   c1_no_records_priority "Acme" blockedNoRecordsEnv
     ⟨rfl, rfl, rfl, rfl, rfl, rfl, rfl, rfl⟩ rfl rfl (by decide)⟩

/-- C2: counterexample — the timeout fixture (no table, no known phrase)
and a confirmed-block page (challenge text, no table) produce the very
same run, whose result is the single error entry with the fixed message:
the outcome for a timeout is not a variant distinct from a block, so the
caller cannot tell the two apart. -/
theorem c2_not_distinct_counterexample :
    scrape timeoutFixtureEnv = scrape blockedFixtureEnv ∧
    (scrape timeoutFixtureEnv).result =
      Except.ok [Entry.err "Search timed out or was blocked by the registry."] :=
  ⟨rfl, rfl⟩

/-- C2 (amended): when no table appears and the content carries no known
phrase, the outcome is the single error entry with the fixed message
"Search timed out or was blocked by the registry.", reported by the route
as status "error"; the very same value also stands for blocked pages — the
code does not produce a variant distinct from a block. -/
theorem c2_timeout_error (q : String) (env : Env) (hok : okSteps env)
    (ht : env.tableRows = none) (hr : env.readContent = none)
    (hc : strContains env.content "No Records Found" = false) :
    searchRoute q env =
      Except.ok { status := "error",
                  message := some "Search timed out or was blocked by the registry.",
                  query := none, count := none, results := [] } := by
  obtain ⟨h1, h2, h3, h4, h5, h6, h7, h8⟩ := hok
  simp [searchRoute, scrape, tryBody, h1, h2, h3, h4, h5, h6, h7, h8, ht, hr, hc]

/-- C2 (amended) witness at the concrete timeout fixture. -/
theorem c2_timeout_error_witness :
    okSteps timeoutFixtureEnv ∧
    searchRoute "Tesla" timeoutFixtureEnv =
      Except.ok { status := "error",
                  message := some "Search timed out or was blocked by the registry.",
                  query := none, count := none, results := [] } :=
  ⟨⟨rfl, rfl, rfl, rfl, rfl, rfl, rfl, rfl⟩,
   c2_timeout_error "Tesla" timeoutFixtureEnv
     ⟨rfl, rfl, rfl, rfl, rfl, rfl, rfl, rfl⟩ rfl rfl (by decide)⟩

/-- C3: for a results table whose first row is the header and whose
remaining N ≥ 1 data rows all have at least two cells, `search` answers
the success response with exactly the N records, in source row order with
duplicates preserved, header excluded, `file_number` the trimmed first
cell and `entity_name` the trimmed second cell of each row. -/
theorem c3_success_records (q : String) (env : Env)
    (header : List String) (dataRows : List (List String))
    (hok : okSteps env) (ht : env.tableRows = some (header :: dataRows))
    (hwf : ∀ r ∈ dataRows, 2 ≤ r.length) (hne : dataRows ≠ []) :
    searchRoute q env =
      Except.ok { status := "success", message := none, query := some q,
                  count := some dataRows.length,
                  results := dataRows.map recOf } := by
  obtain ⟨h1, h2, h3, h4, h5, h6, h7, h8⟩ := hok
  have hex : extractRows (header :: dataRows) = dataRows.map recOf := by
    simp [extractRows, filterMap_extractRow_of_wf dataRows hwf]
  cases dataRows with
  | nil => exact absurd rfl hne
  | cons a t =>
    simp [searchRoute, scrape, tryBody, h1, h2, h3, h4, h5, h6, h7, h8, ht,
          hex, recOf]

/-- C3 witness at the concrete two-data-row table `c3Table`, checking the
trimming, the order and the exclusion of the header. -/
theorem c3_success_records_witness :
    searchRoute "Tesla" c3Env =
      Except.ok { status := "success", message := none, query := some "Tesla",
                  count := some ([[" 123 ", " Tesla Inc. ", "Active"],
                                  ["456", "Acme Corp"]] :
                                    List (List String)).length,
                  results := ([[" 123 ", " Tesla Inc. ", "Active"],
                               ["456", "Acme Corp"]] :
                                 List (List String)).map recOf } :=
  c3_success_records "Tesla" c3Env ["File Number", "Entity Name"]
    [[" 123 ", " Tesla Inc. ", "Active"], ["456", "Acme Corp"]]
    ⟨rfl, rfl, rfl, rfl, rfl, rfl, rfl, rfl⟩ rfl (by decide) (by decide)

/-- C4: counterexample — a page state where the results table appears
(reduced to its header row) while the content even carries the no-records
phrase does not produce a success outcome: the route answers
"no_results", so "table appears implies Success" fails as a universal
statement. -/
theorem c4_table_wins_counterexample :
    searchRoute "Tesla" headerOnlyTableEnv =
      Except.ok { status := "no_results", message := none,
                  query := some "Tesla", count := some 0, results := [] } := rfl

/-- C4 (amended): if the results table appears and extraction yields at
least one record, the outcome is the success response carrying exactly the
extracted records — for every page content, in particular one containing
the no-records phrase: the content is never inspected once the table is
present. -/
theorem c4_table_wins (q : String) (env : Env) (rows : List (List String))
    (hok : okSteps env) (ht : env.tableRows = some rows)
    (hne : extractRows rows ≠ []) :
    searchRoute q env =
      Except.ok { status := "success", message := none, query := some q,
                  count := some (extractRows rows).length,
                  results := extractRows rows } := by
  obtain ⟨h1, h2, h3, h4, h5, h6, h7, h8⟩ := hok
  cases hrows : extractRows rows with
  | nil => exact absurd hrows hne
  | cons e tail =>
    have he : e ∈ (rows.drop 1).filterMap extractRow := by
      rw [show (rows.drop 1).filterMap extractRow = extractRows rows from rfl,
          hrows]
      exact List.mem_cons_self e tail
    rcases mem_filterMap_extractRow_record he with ⟨x, hx⟩
    subst hx
    simp [searchRoute, scrape, tryBody, h1, h2, h3, h4, h5, h6, h7, h8, ht,
          hrows]

/-- C4 (amended) witness: a valid one-data-row table rendered alongside
content that does contain the no-records phrase still yields the success
response. -/
theorem c4_table_wins_witness :
    strContains tableWithPhraseEnv.content "No Records Found" = true ∧
    searchRoute "Tesla" tableWithPhraseEnv =
      Except.ok { status := "success", message := none, query := some "Tesla",
                  count := some (extractRows [["File Number", "Entity Name"],
                                              ["789", "Tesla Motors"]]).length,
                  results := extractRows [["File Number", "Entity Name"],
                                          ["789", "Tesla Motors"]] } :=
  ⟨by decide,
   c4_table_wins "Tesla" tableWithPhraseEnv
     [["File Number", "Entity Name"], ["789", "Tesla Motors"]]
     ⟨rfl, rfl, rfl, rfl, rfl, rfl, rfl, rfl⟩ rfl (by decide)⟩

/-- C5: counterexample — when launching the browser engine raises, the
exception escapes `scrape_de_search` uncaught (the launch happens before
the `try` block) and crosses the route boundary as a raw error, not as an
in-band error outcome value. -/
theorem c5_launch_failure_counterexample :
    searchRoute "Tesla" launchFailEnv =
      Except.error "Browser executable not found" := rfl

/-- C5 (amended): an engine-launch failure propagates out of both
`scrape_de_search` and the route handler as a raw exception, because the
launch precedes the `try`/`except`; only failures raised once the session
exists are converted in-band — whenever launch, context creation and page
creation all succeed, the route always returns an ok response value. -/
theorem c5_launch_failure_raw (q : String) (env : Env) :
    (∀ e, env.launch = some e → searchRoute q env = Except.error e) ∧
    (env.launch = none → env.newContext = none → env.newPage = none →
      ∃ r, searchRoute q env = Except.ok r) := by
  constructor
  · intro e he
    simp [searchRoute, scrape, he]
  · intro h1 h2 h3
    simp only [searchRoute, scrape, h1, h2, h3]
    cases htb : (tryBody env).1 with
    | nil => exact ⟨_, rfl⟩
    | cons a t =>
      cases a with
      | record x => exact ⟨_, rfl⟩
      | err m => exact ⟨_, rfl⟩

/-- C5 (amended) witness: the raw propagation at the concrete launch
failure, and the in-band conversion on an environment whose session
creation succeeds. -/
theorem c5_launch_failure_raw_witness :
    searchRoute "Acme" launchFailEnv =
      Except.error "Browser executable not found" ∧
    (∃ r, searchRoute "Acme" okEnvBase = Except.ok r) :=
  ⟨(c5_launch_failure_raw "Acme" launchFailEnv).1
     "Browser executable not found" rfl,
   (c5_launch_failure_raw "Acme" okEnvBase).2 rfl rfl rfl⟩

/-- C6: once the session exists (launch, context creation and page
creation all succeeded), every exit path of `scrape_de_search` — record
extraction, the no-records return, the generic timed-out-or-blocked
return, and every caught exception (navigation, field wait, clicks, fill,
submit, content read) — runs the `finally` block, so `browser.close()`
releases the browser and, with it, the context and the page before the
outcome is returned. -/
theorem c6_session_released (env : Env) (h1 : env.launch = none)
    (h2 : env.newContext = none) (h3 : env.newPage = none) :
    (scrape env).browserClosed = true ∧ (scrape env).contextClosed = true ∧
    (scrape env).pageClosed = true := by
  simp [scrape, h1, h2, h3]

/-- C6 witness on a concrete caught-exception path: the field-visibility
timeout still closes everything. -/
theorem c6_session_released_witness :
    (scrape fieldTimeoutEnv).browserClosed = true ∧
    (scrape fieldTimeoutEnv).contextClosed = true ∧
    (scrape fieldTimeoutEnv).pageClosed = true :=
  c6_session_released fieldTimeoutEnv rfl rfl rfl

/-- C7: if the name-input field never becomes visible within its deadline
(the visibility wait raises), the caught exception becomes the in-band
error outcome — the route answers status "error" carrying the exception's
message, the code's representation of a transient failure — and the submit
control is never clicked. -/
theorem c7_field_timeout (q : String) (env : Env) (msg : String)
    (h1 : env.launch = none) (h2 : env.newContext = none)
    (h3 : env.newPage = none) (h4 : env.goto = none)
    (h5 : env.fieldWait = some msg) :
    (scrape env).submitClicked = false ∧
    searchRoute q env =
      Except.ok { status := "error", message := some msg,
                  query := none, count := none, results := [] } := by
  constructor
  · simp [scrape, tryBody, h1, h2, h3, h4, h5]
  · simp [searchRoute, scrape, tryBody, h1, h2, h3, h4, h5]

/-- C7 witness at the concrete field-visibility timeout. -/
theorem c7_field_timeout_witness :
    (scrape fieldTimeoutEnv).submitClicked = false ∧
    searchRoute "Tesla" fieldTimeoutEnv =
      Except.ok { status := "error",
                  message := some "Timeout 30000ms exceeded waiting for element to be visible",
                  query := none, count := none, results := [] } :=
  c7_field_timeout "Tesla" fieldTimeoutEnv
    "Timeout 30000ms exceeded waiting for element to be visible"
    rfl rfl rfl rfl rfl

/-- C8: extraction skips exactly the malformed rows: in a table holding a
header, well-formed rows and one row with fewer than two cells, the
malformed row is dropped while every well-formed row around it is kept,
in order, and extraction does not abort. -/
theorem c8_malformed_row_skipped (header mal : List String)
    (pre post : List (List String)) (hmal : mal.length < 2)
    (hpre : ∀ r ∈ pre, 2 ≤ r.length) (hpost : ∀ r ∈ post, 2 ≤ r.length) :
    extractRows (header :: (pre ++ mal :: post)) = (pre ++ post).map recOf := by
  have hm : extractRow mal = none := extractRow_malformed mal hmal
  simp [extractRows, List.filterMap_append, List.filterMap_cons, hm,
        filterMap_extractRow_of_wf pre hpre,
        filterMap_extractRow_of_wf post hpost]

/-- C8 witness: a concrete table whose second data row has a single cell
loses exactly that row. -/
theorem c8_malformed_row_skipped_witness :
    (["lone-cell"] : List String).length < 2 ∧
    extractRows (["File Number", "Entity Name"] ::
        ([["1", "Alpha LLC"]] ++ ["lone-cell"] :: [["2", "Beta Inc"]])) =
      ([["1", "Alpha LLC"], ["2", "Beta Inc"]] :
        List (List String)).map recOf :=
  ⟨by decide,
   c8_malformed_row_skipped ["File Number", "Entity Name"] ["lone-cell"]
     [["1", "Alpha LLC"]] [["2", "Beta Inc"]]
     (by decide) (by decide) (by decide)⟩

/-- C9: counterexample — the session-creation sequence of
`scrape_de_search` contains no script-injection action at all: no
pre-navigation (context-level) script overriding the automation-detection
property is ever installed. -/
theorem c9_no_init_script_counterexample :
    sessionSetup.any isInitScriptAction = false := rfl

/-- C9 (amended): the only anti-detection measures taken at session
creation are the launch flag "--disable-blink-features=AutomationControlled"
and a desktop user agent on the context; no pre-navigation script
injection occurs anywhere in the sequence. -/
theorem c9_stealth_setup :
    SetupAction.launch launchOpts ∈ sessionSetup ∧
    launchOpts.args = ["--disable-blink-features=AutomationControlled"] ∧
    SetupAction.newContext contextOpts ∈ sessionSetup ∧
    sessionSetup.any isInitScriptAction = false := by
  refine ⟨?_, rfl, ?_, rfl⟩
  · simp [sessionSetup]
  · simp [sessionSetup]

/-- C10: a results table that appears but yields no well-formed data row
produces the very same response as a confirmed no-records page — status
"no_results", count 0, empty list — and, over every environment, an ok
response has status "success" exactly when its record list is non-empty,
so a success response never carries zero records. -/
theorem c10_empty_table_no_results (q : String) (env envNoRec : Env)
    (rows : List (List String)) (hok : okSteps env)
    (ht : env.tableRows = some rows) (hempty : extractRows rows = [])
    (hok2 : okSteps envNoRec) (ht2 : envNoRec.tableRows = none)
    (hr2 : envNoRec.readContent = none)
    (hc2 : strContains envNoRec.content "No Records Found" = true) :
    searchRoute q env = searchRoute q envNoRec ∧
    searchRoute q env =
      Except.ok { status := "no_results", message := none, query := some q,
                  count := some 0, results := [] } ∧
    (∀ (env2 : Env) (r : SearchResponse),
        searchRoute q env2 = Except.ok r → (r.status = "success" ↔ r.results ≠ [])) := by
  obtain ⟨h1, h2, h3, h4, h5, h6, h7, h8⟩ := hok
  obtain ⟨g1, g2, g3, g4, g5, g6, g7, g8⟩ := hok2
  refine ⟨?_, ?_, ?_⟩
  · simp [searchRoute, scrape, tryBody, h1, h2, h3, h4, h5, h6, h7, h8, ht,
          hempty, g1, g2, g3, g4, g5, g6, g7, g8, ht2, hr2, hc2]
  · simp [searchRoute, scrape, tryBody, h1, h2, h3, h4, h5, h6, h7, h8, ht,
          hempty]
  · intro env2 r hr
    cases hres : (scrape env2).result with
    | error e => simp [searchRoute, hres] at hr
    | ok data =>
      cases data with
      | nil =>
        simp only [searchRoute, hres, List.isEmpty_nil, if_pos,
                   Except.ok.injEq] at hr
        subst hr
        simp
      | cons a t =>
        cases a with
        | err m =>
          simp only [searchRoute, hres, Except.ok.injEq] at hr
          subst hr
          simp
        | record x =>
          simp only [searchRoute, hres, List.isEmpty_cons,
                     Except.ok.injEq] at hr
          subst hr
          simp

/-- C10 witness: the header-plus-malformed-row table and the concrete
no-records page produce the same no-results response. -/
theorem c10_empty_table_no_results_witness :
    searchRoute "Tesla" emptyTableEnv = searchRoute "Tesla" noRecordsEnv ∧
    searchRoute "Tesla" emptyTableEnv =
      Except.ok { status := "no_results", message := none,
                  query := some "Tesla", count := some 0, results := [] } :=
  ⟨(c10_empty_table_no_results "Tesla" emptyTableEnv noRecordsEnv
      [["File Number", "Entity Name"], ["lone-cell"]]
      ⟨rfl, rfl, rfl, rfl, rfl, rfl, rfl, rfl⟩ rfl (by decide)
      ⟨rfl, rfl, rfl, rfl, rfl, rfl, rfl, rfl⟩ rfl rfl (by decide)).1,
   (c10_empty_table_no_results "Tesla" emptyTableEnv noRecordsEnv
      [["File Number", "Entity Name"], ["lone-cell"]]
      ⟨rfl, rfl, rfl, rfl, rfl, rfl, rfl, rfl⟩ rfl (by decide)
      ⟨rfl, rfl, rfl, rfl, rfl, rfl, rfl, rfl⟩ rfl rfl (by decide)).2.1⟩

end JurisExtract
